import Mathlib

/-!
Verification of the `inx-chronicle` supervision policy and Merkle hasher.

Shallow embedding of:
* `src/bin/inx-chronicle/src/main.rs` — the `Launcher` supervisor actor and its
  `HandleEvent` implementations for `Report<Broker>`, `Report<InxListener>` and
  `Report<ApiWorker>`;
* `src/bin/inx-chronicle/src/broker.rs` — the `Broker` actor's handlers for
  incoming `inx::proto::Message` and `inx::proto::Milestone` events;
* `src/src/bin/inx-chronicle/api/poi/merkle_hasher.rs` — `MerkleHasher::hash`,
  `largest_power_of_two` and `bit_length`.

Handlers are embedded as pure functions from the received event (plus the parts
of the actor state they read) to the ordered list of runtime effects they
perform (`cx.shutdown()`, `cx.spawn_actor_supervised(..)`, `cx.delay(..)`,
`tokio::time::sleep(..)`, log calls) together with the updated actor state.
Fresh addresses produced by `spawn_actor_supervised` are runtime-chosen, so they
are passed in as an explicit parameter.
-/

/-! ### External collaborator types (interfaces only)

The persistence layer and the INX client are external crates; only the shape
that the supervision code pattern-matches on is modelled. -/

/-- `mongodb::error::ErrorKind` (external crate): the kinds the Launcher's
match distinguishes (`Io`, `ServerSelection`) plus representatives of the
kinds its wildcard arm covers. Payloads are collapsed to their message. -/
inductive MongoErrorKind where
  | ioError (msg : String)
  | serverSelection (msg : String)
  | authentication (msg : String)
  | command (msg : String)
  | write (msg : String)
  | invalidArgument (msg : String)
  | internalError (msg : String)
  deriving DecidableEq, Repr

/-- Modelled from the spec: `chronicle::db::MongoDbError` (library crate of this
repository, not under `src/`). §6 requires the persistence error to be
classifiable into at least `{Io, ServerSelection, Other}`; `main.rs` matches a
`DatabaseError` variant carrying a `mongodb` error (whose `.kind` is inspected)
and a wildcard `other` arm for non-database variants. -/
inductive MongoDbError where
  | databaseError (kind : MongoErrorKind)
  | otherError (msg : String)
  deriving DecidableEq, Repr

/-- `chronicle::runtime::error::RuntimeError`: opaque payload, only matched as
a whole. -/
structure RuntimeError where
  msg : String
  deriving DecidableEq, Repr

/-- `chronicle::inx::InxError` (`main.rs` matches these four variants). -/
inductive InxError where
  | connectionError (msg : String)
  | invalidAddress (msg : String)
  | parsingAddressFailed (msg : String)
  | transportFailed (msg : String)
  deriving DecidableEq, Repr

/-! ### Actor-runtime types (`chronicle::runtime`) -/

/-- `ActorError<E>`: the typed outcome of a failed actor run. -/
inductive ActorError (E : Type) where
  | result (e : E)
  | panic
  | aborted
  deriving DecidableEq, Repr

/-- `Report<A>` as consumed by the Launcher: `Ok(_)` or `Err(e)` where
`e.error : ActorError<A::Error>`. -/
inductive Report (E : Type) where
  | ok
  | err (e : ActorError E)
  deriving DecidableEq, Repr

/-- `Addr<A>`: a mailbox handle; `id` is the runtime-chosen identity of the
actor instance and `closed` the observable `is_closed()` flag. -/
structure Addr where
  id : Nat
  closed : Bool
  deriving DecidableEq, Repr

/-- `Addr::is_closed`. -/
def Addr.is_closed (a : Addr) : Bool := a.closed

/-! ### Configuration and the persistence handle -/

/-- `MongoDbConfig` (connection parameters; contents opaque to the policy). -/
structure MongoDbConfig where
  connStr : String
  deriving DecidableEq, Repr

/-- `InxConfig` (INX connection parameters; contents opaque to the policy). -/
structure InxConfig where
  connectUrl : String
  deriving DecidableEq, Repr

/-- `Config { mongodb, inx }` as read by the Launcher handlers. -/
structure Config where
  mongodb : MongoDbConfig
  inx : InxConfig
  deriving DecidableEq, Repr

/-- `MongoDatabase`: the persistence handle produced by
`config.mongodb.clone().build()`. -/
structure MongoDatabase where
  cfg : MongoDbConfig
  deriving DecidableEq, Repr

/-- `MongoDbConfig::build`: builds a fresh persistence connection from the
configuration. -/
def MongoDbConfig.build (cfg : MongoDbConfig) : MongoDatabase := ⟨cfg⟩

/-! ### The supervised children -/

/-- `BrokerError` (`broker.rs`). -/
inductive BrokerError where
  | mongoDbError (e : MongoDbError)
  | runtimeError (e : RuntimeError)
  deriving DecidableEq, Repr

/-- `Broker { db }` (`broker.rs`). -/
structure Broker where
  db : MongoDatabase
  deriving DecidableEq, Repr

/-- `Broker::new`. -/
def Broker.new (db : MongoDatabase) : Broker := ⟨db⟩

/-- `InxListenerError` (`inx_listener.rs`, matched in `main.rs`). -/
inductive InxListenerError where
  | inx (e : InxError)
  | read (msg : String)
  | runtime (e : RuntimeError)
  | missingBroker
  deriving DecidableEq, Repr

/-- `InxListener { config, broker_addr }` as constructed by
`InxListener::new(config.inx.clone(), broker_addr.clone())`. -/
structure InxListener where
  config : InxConfig
  broker_addr : Addr
  deriving DecidableEq, Repr

/-- `InxListener::new`. -/
def InxListener.new (config : InxConfig) (broker_addr : Addr) : InxListener :=
  ⟨config, broker_addr⟩

/-- `ApiWorker { db }` as constructed by `ApiWorker::new(db)`. -/
structure ApiWorker where
  db : MongoDatabase
  deriving DecidableEq, Repr

/-- `ApiWorker::new`. -/
def ApiWorker.new (db : MongoDatabase) : ApiWorker := ⟨db⟩

/-! ### The Launcher and its handler effects -/

/-- `Launcher { inx_connection_retry_interval }` (interval in seconds). -/
structure Launcher where
  inx_connection_retry_interval : Nat
  deriving DecidableEq, Repr

/-- The `Launcher` value built by `startup`:
`inx_connection_retry_interval: Duration::from_secs(5)`. -/
def startupLauncher : Launcher := ⟨5⟩

/-- Effects performed by `HandleEvent<Report<Broker>> for Launcher`, in
program order. `spawnBroker b` stands for
`cx.spawn_actor_supervised(Broker::new(db))` on the freshly built `db`. -/
inductive BrokerEffect where
  | shutdown
  | spawnBroker (b : Broker)
  | logWarn (msg : String)
  deriving DecidableEq, Repr

/-- `impl HandleEvent<Report<Broker>> for Launcher` (`main.rs`): given the
state `(config, broker_addr)` and the runtime-chosen address `freshAddr` of
any newly spawned broker, returns the effect list and the updated stored
broker address. -/
def handleBrokerReport (config : Config) (broker_addr : Addr) (freshAddr : Addr)
    (event : Report BrokerError) : List BrokerEffect × Addr :=
  match event with
  | .ok => ([.shutdown], broker_addr)
  | .err e =>
    match e with
    | .result e =>
      match e with
      | .runtimeError _ => ([.shutdown], broker_addr)
      | .mongoDbError e =>
        match e with
        | .databaseError kind =>
          match kind with
          | .ioError _ =>
              ([.spawnBroker (Broker.new config.mongodb.build)], freshAddr)
          | .serverSelection _ =>
              ([.spawnBroker (Broker.new config.mongodb.build)], freshAddr)
          | _ => ([.shutdown], broker_addr)
        | .otherError m => ([.logWarn m, .shutdown], broker_addr)
    | .panic => ([.shutdown], broker_addr)
    | .aborted => ([.shutdown], broker_addr)

/-- Effects performed by `HandleEvent<Report<InxListener>> for Launcher`, in
program order. `sleep n` is `tokio::time::sleep` of `n` seconds;
`delayEvent ev d` is `cx.delay(event, d)`; `spawnListener l` is
`cx.spawn_actor_supervised(InxListener::new(config.inx, broker_addr))`. -/
inductive ListenerEffect where
  | shutdown
  | sleep (secs : Nat)
  | spawnListener (l : InxListener)
  | delayEvent (ev : Report InxListenerError) (duration : Option Nat)
  | logInfo (msg : String)
  deriving DecidableEq, Repr

/-- `impl HandleEvent<Report<InxListener>> for Launcher` (`main.rs`): given the
launcher's retry interval and state `(config, broker_addr)`, returns the
effect list (this handler never rebinds `broker_addr`). -/
def handleInxListenerReport (self : Launcher) (config : Config)
    (broker_addr : Addr) (event : Report InxListenerError) : List ListenerEffect :=
  match event with
  | .ok => [.shutdown]
  | .err e =>
    match e with
    | .result e =>
      match e with
      | .inx e =>
        match e with
        | .connectionError _ =>
            [.logInfo ("Retrying INX connection."),
             .sleep self.inx_connection_retry_interval,
             .spawnListener (InxListener.new config.inx broker_addr)]
        | .invalidAddress _ => [.shutdown]
        | .parsingAddressFailed _ => [.shutdown]
        | .transportFailed e =>
          if e = "transport error" then
            [.spawnListener (InxListener.new config.inx broker_addr)]
          else [.shutdown]
      | .read _ => [.shutdown]
      | .runtime _ => [.shutdown]
      | .missingBroker =>
        if broker_addr.is_closed then
          [.delayEvent event none]
        else
          [.spawnListener (InxListener.new config.inx broker_addr)]
    | .panic => [.shutdown]
    | .aborted => [.shutdown]

/-- Effects performed by `HandleEvent<Report<ApiWorker>> for Launcher`. -/
inductive ApiEffect where
  | shutdown
  | spawnApiWorker (w : ApiWorker)
  deriving DecidableEq, Repr

/-- `impl HandleEvent<Report<ApiWorker>> for Launcher` (`main.rs`): the state
pattern is `(config, _)`, so the stored broker address is neither read nor
written. `E` is the ApiWorker's error type (matched only by wildcard). -/
def handleApiWorkerReport {E : Type} (config : Config)
    (event : Report E) : List ApiEffect :=
  match event with
  | .ok => [.shutdown]
  | .err e =>
    match e with
    | .result _ => [.spawnApiWorker (ApiWorker.new config.mongodb.build)]
    | .panic => [.shutdown]
    | .aborted => [.shutdown]

/-- A broker report is *transient* exactly when it is an application error
whose payload is a persistence `DatabaseError` of kind `Io` or
`ServerSelection` (the two kinds the code's comment calls recoverable). -/
def transientBrokerReport : Report BrokerError → Bool
  | .err (.result (.mongoDbError (.databaseError (.ioError _)))) => true
  | .err (.result (.mongoDbError (.databaseError (.serverSelection _)))) => true
  | _ => false

/-! ### Broker event handlers (`broker.rs`)

The conversion `TryFrom` and the database call `upsert_one` belong to external
collaborators (the INX protocol crate and the persistence layer), so they are
passed in as function parameters; `M` is the incoming protobuf event type and
`R` the storage record type. The result records, in order: the handler's
return value, the list of records for which `upsert_one` was invoked, and
whether a `log::warn!` was emitted. -/

/-- Outcome of one broker handler run. -/
structure BrokerHandlerRun (R : Type) where
  result : Except BrokerError Unit
  upserts : List R
  warned : Bool

/-- `impl HandleEvent<inx::proto::Message> for Broker` (`broker.rs`):
`MessageRecord::try_from(message)`; on success `self.db.upsert_one(rec).await?`,
on conversion failure `log::warn!` and fall through to `Ok(())`. -/
def brokerHandleMessage {M R : Type} (try_from : M → Except String R)
    (upsert_one : R → Except MongoDbError Unit) (message : M) :
    BrokerHandlerRun R :=
  match try_from message with
  | .ok rec =>
    match upsert_one rec with
    | .ok _ => ⟨.ok (), [rec], false⟩
    | .error e => ⟨.error (.mongoDbError e), [rec], false⟩
  | .error _ => ⟨.ok (), [], true⟩

/-- `impl HandleEvent<inx::proto::Milestone> for Broker` (`broker.rs`):
`MilestoneRecord::try_from(milestone)`; same structure as the message
handler. -/
def brokerHandleMilestone {M R : Type} (try_from : M → Except String R)
    (upsert_one : R → Except MongoDbError Unit) (milestone : M) :
    BrokerHandlerRun R :=
  match try_from milestone with
  | .ok rec =>
    match upsert_one rec with
    | .ok _ => ⟨.ok (), [rec], false⟩
    | .error e => ⟨.error (.mongoDbError e), [rec], false⟩
  | .error _ => ⟨.ok (), [], true⟩

/-! ### Merkle hasher (`merkle_hasher.rs`)

The hash function `Blake2b256` is an external crate; `digest` is passed as a
parameter mapping a byte sequence (modelled as `List Nat`) to its hash.
`hasher.update(a); hasher.update(b); ...; hasher.finalize()` digests the
concatenation of the updates. `usize` is modelled as `Nat`; the source's
`(n - 1) as u32` cast is the reduction `% 2^32`, and `u32::leading_zeros` of a
value below `2^32` is `32 - Nat.size`. -/

/-- `LEAF_HASH_PREFIX: u8 = 0`. -/
def leafHashTag : Nat := 0

/-- `NODE_HASH_PREFIX: u8 = 1`. -/
def nodeHashTag : Nat := 1

/-- `u32::leading_zeros` for an argument already reduced below `2^32`. -/
def leading_zeros (n : Nat) : Nat := 32 - n.size

/-- `bit_length(n: u32) = 32 - n.leading_zeros()`. -/
def bit_length (n : Nat) : Nat := 32 - leading_zeros n

/-- `largest_power_of_two(n: usize) = 1 << (bit_length((n - 1) as u32) - 1)`.
The `as u32` cast truncates: it is `% 2^32`. -/
def largest_power_of_two (n : Nat) : Nat :=
  1 <<< (bit_length ((n - 1) % 4294967296) - 1)

/-- For an argument below `2^32`, `bit_length` is the binary length. -/
theorem bit_length_eq_size (n : Nat) (h : n < 4294967296) :
    bit_length n = n.size := by
  have hs : n.size ≤ 32 := Nat.size_le.mpr h
  simp [bit_length, leading_zeros, Nat.sub_sub_self hs]

/-- `largest_power_of_two` always returns a positive power of two. -/
theorem largest_power_of_two_pos (n : Nat) : 0 < largest_power_of_two n := by
  rw [largest_power_of_two, Nat.shiftLeft_eq, one_mul]
  positivity

/-- For `n ≥ 2`, the split point returned by `largest_power_of_two` is below
`n` (true even where the `u32` cast truncates, which keeps `hash` total). -/
theorem largest_power_of_two_lt (n : Nat) (h : 2 ≤ n) :
    largest_power_of_two n < n := by
  have hmod : (n - 1) % 4294967296 < 4294967296 := Nat.mod_lt _ (by decide)
  have hsize : ((n - 1) % 4294967296).size ≤ 32 := Nat.size_le.mpr hmod
  rw [largest_power_of_two, bit_length_eq_size _ hmod, Nat.shiftLeft_eq, one_mul]
  rcases Nat.lt_or_ge (n - 1) 4294967296 with hlt | hge
  · rw [Nat.mod_eq_of_lt hlt]
    have h1 : 1 ≤ n - 1 := by omega
    have hpos : 0 < (n - 1).size := Nat.size_pos.mpr h1
    have : 2 ^ ((n - 1).size - 1) ≤ n - 1 := Nat.lt_size.mp (by omega)
    omega
  · have : 2 ^ (((n - 1) % 4294967296).size - 1) ≤ 2 ^ 31 :=
      Nat.pow_le_pow_right (by decide) (by omega)
    have h31 : (2 : Nat) ^ 31 < 4294967296 := by norm_num
    omega

namespace MerkleHasher

/-- `MerkleHasher::hash_empty() = Blake2b256::digest([])`. -/
def hash_empty (digest : List Nat → List Nat) : List Nat := digest []

/-- `MerkleHasher::hash_leaf(l)`: digest of the leaf prefix byte followed by
`l`. -/
def hash_leaf (digest : List Nat → List Nat) (l : List Nat) : List Nat :=
  digest (leafHashTag :: l)

/-- `MerkleHasher::hash_node(l, r)`: digest of the node prefix byte followed
by `l` then `r`. -/
def hash_node (digest : List Nat → List Nat) (l r : List Nat) : List Nat :=
  digest (nodeHashTag :: (l ++ r))

/-- `MerkleHasher::hash(data)`: empty and singleton base cases, otherwise
split at `k = largest_power_of_two(data.len())` and recurse. -/
def hash (digest : List Nat → List Nat) : List (List Nat) → List Nat
  | [] => hash_empty digest
  | [l] => hash_leaf digest l
  | a :: b :: rest =>
    hash_node digest
      (hash digest ((a :: b :: rest).take (largest_power_of_two (a :: b :: rest).length)))
      (hash digest ((a :: b :: rest).drop (largest_power_of_two (a :: b :: rest).length)))
termination_by data => data.length
decreasing_by
  · have h2 : 2 ≤ (a :: b :: rest).length := by simp
    have hlt := largest_power_of_two_lt _ h2
    simp only [List.length_take]
    omega
  · have h2 : 2 ≤ (a :: b :: rest).length := by simp
    have hpos := largest_power_of_two_pos (a :: b :: rest).length
    simp only [List.length_drop]
    omega

end MerkleHasher

/-- `k` is *the* largest power of two strictly below `n` (the property the
spec and the source's doc comment ascribe to `largest_power_of_two`). -/
def IsLargestPow2Lt (k n : Nat) : Prop :=
  (∃ i, k = 2 ^ i) ∧ k < n ∧ ∀ j, 2 ^ j < n → 2 ^ j ≤ k

/-! ### Concrete fixtures (used by witness theorems) -/

/-- A concrete configuration. -/
def cfgA : Config := ⟨⟨("mongodb://localhost:27017")⟩, ⟨("http://localhost:9029")⟩⟩

/-- A concrete closed address. -/
def addrClosed : Addr := ⟨0, true⟩

/-- A concrete open address. -/
def addrOpen : Addr := ⟨1, false⟩

/-- A concrete conversion: fails on `0`, succeeds otherwise. -/
def wTryFrom : Nat → Except String Nat :=
  fun n => if n = 0 then .error ("conv failed") else .ok n

/-- A concrete always-succeeding upsert. -/
def wUpsertOk : Nat → Except MongoDbError Unit := fun _ => .ok ()

/-- A concrete always-failing upsert. -/
def wUpsertErr : Nat → Except MongoDbError Unit :=
  fun _ => .error (.databaseError (.ioError ("db down")))

/-! ### Helper lemmas -/

/-- Without `u32` truncation, `largest_power_of_two` is
`2 ^ (size (n - 1) - 1)`. -/
theorem largest_power_of_two_eq_pow (n : Nat) (h : n - 1 < 4294967296) :
    largest_power_of_two n = 2 ^ ((n - 1).size - 1) := by
  rw [largest_power_of_two, Nat.mod_eq_of_lt h, bit_length_eq_size _ h,
    Nat.shiftLeft_eq, one_mul]

/-- At the truncation point `2^32 + 2`, the split is computed from the
wrapped value `1` and comes out as `1`. -/
theorem largest_power_of_two_failing : largest_power_of_two 4294967298 = 1 := by
  have h : (4294967298 - 1) % 4294967296 = 1 := by norm_num
  rw [largest_power_of_two, h, bit_length_eq_size 1 (by norm_num), Nat.size_one]
  decide

/-- Below the truncation point, every power of two below `n` is at most the
returned split. -/
theorem pow_le_largest (n j : Nat) (h1 : 2 ≤ n) (h2 : n - 1 < 4294967296)
    (hj : 2 ^ j < n) : 2 ^ j ≤ largest_power_of_two n := by
  rw [largest_power_of_two_eq_pow n h2]
  have hle : 2 ^ j ≤ n - 1 := by omega
  have hsz : j < (n - 1).size := Nat.lt_size.mpr hle
  exact Nat.pow_le_pow_right (by norm_num) (by omega)

/-- Unfolding of `MerkleHasher.hash` on inputs of two or more elements. -/
theorem hash_cons_cons (digest : List Nat → List Nat) (data : List (List Nat))
    (h : 2 ≤ data.length) :
    MerkleHasher.hash digest data =
      MerkleHasher.hash_node digest
        (MerkleHasher.hash digest (data.take (largest_power_of_two data.length)))
        (MerkleHasher.hash digest (data.drop (largest_power_of_two data.length))) := by
  rcases data with _ | ⟨a, _ | ⟨b, rest⟩⟩
  · simp at h
  · simp at h
  · rw [MerkleHasher.hash]

/-! ### Claim theorems -/

/-- **C1**: on a `Report<Broker>` whose outcome is a transient persistence
error (database error of kind `Io` or `ServerSelection`), the Launcher
rebuilds a persistence connection from its stored config, spawns a fresh
supervised `Broker` with that connection, and overwrites the stored broker
address with the new broker's address — and does not shut down. -/
theorem C1_broker_transient_respawn (config : Config)
    (broker_addr freshAddr : Addr) (m : String) :
    handleBrokerReport config broker_addr freshAddr
        (.err (.result (.mongoDbError (.databaseError (.ioError m))))) =
      ([.spawnBroker (Broker.new config.mongodb.build)], freshAddr) ∧
    handleBrokerReport config broker_addr freshAddr
        (.err (.result (.mongoDbError (.databaseError (.serverSelection m))))) =
      ([.spawnBroker (Broker.new config.mongodb.build)], freshAddr) ∧
    BrokerEffect.shutdown ∉
      (handleBrokerReport config broker_addr freshAddr
        (.err (.result (.mongoDbError (.databaseError (.ioError m)))))).1 ∧
    BrokerEffect.shutdown ∉
      (handleBrokerReport config broker_addr freshAddr
        (.err (.result (.mongoDbError (.databaseError (.serverSelection m)))))).1 := by
  refine ⟨rfl, rfl, ?_, ?_⟩ <;> simp [handleBrokerReport]

/-- **C2**: on a `Report<InxListener>` with the `MissingBroker` error, if the
stored broker address is closed the Launcher re-enqueues exactly that same
`Report` event with no delay; otherwise it spawns a fresh supervised listener
built from its config and the current broker address (and does not
re-enqueue). -/
theorem C2_listener_missing_broker (self : Launcher) (config : Config)
    (broker_addr : Addr) :
    handleInxListenerReport self config broker_addr
        (.err (.result .missingBroker)) =
      (if broker_addr.is_closed then
        [ListenerEffect.delayEvent (.err (.result .missingBroker)) none]
      else
        [ListenerEffect.spawnListener (InxListener.new config.inx broker_addr)]) :=
  rfl

/-- **C3**: on a `Report<InxListener>` with a `TransportFailed` error, the
Launcher spawns a fresh listener immediately if and only if the message is
the known-transient signature, and shuts down for any other message. -/
theorem C3_listener_transport_failed (self : Launcher) (config : Config)
    (broker_addr : Addr) (m : String) :
    handleInxListenerReport self config broker_addr
        (.err (.result (.inx (.transportFailed m)))) =
      (if m = "transport error" then
        [ListenerEffect.spawnListener (InxListener.new config.inx broker_addr)]
      else [ListenerEffect.shutdown]) :=
  rfl

/-- **C4**: on a `Report<InxListener>` with a `ConnectionError`, the Launcher
sleeps for its configured retry interval and then spawns a fresh supervised
listener from the same config and the currently stored broker address,
without shutting down; the launched configuration sets that interval to 5
seconds. -/
theorem C4_listener_connection_error (self : Launcher) (config : Config)
    (broker_addr : Addr) (m : String) :
    handleInxListenerReport self config broker_addr
        (.err (.result (.inx (.connectionError m)))) =
      [.logInfo ("Retrying INX connection."),
       .sleep self.inx_connection_retry_interval,
       .spawnListener (InxListener.new config.inx broker_addr)] ∧
    startupLauncher.inx_connection_retry_interval = 5 ∧
    ListenerEffect.shutdown ∉
      handleInxListenerReport self config broker_addr
        (.err (.result (.inx (.connectionError m)))) := by
  refine ⟨rfl, rfl, ?_⟩
  simp [handleInxListenerReport]

/-- **C5**: every `Report<Broker>` that is not a transient persistence error
(`Ok`, runtime error, other database error kinds, non-database persistence
error, `Panic`, `Aborted`) makes the Launcher shut down, spawn no
replacement broker, and leave the stored broker address unchanged. -/
theorem C5_broker_nontransient_shutdown (config : Config)
    (broker_addr freshAddr : Addr) (event : Report BrokerError)
    (h : transientBrokerReport event = false) :
    BrokerEffect.shutdown ∈
      (handleBrokerReport config broker_addr freshAddr event).1 ∧
    (∀ b : Broker, BrokerEffect.spawnBroker b ∉
      (handleBrokerReport config broker_addr freshAddr event).1) ∧
    (handleBrokerReport config broker_addr freshAddr event).2 = broker_addr := by
  rcases event with _ | e
  · exact ⟨by simp [handleBrokerReport], by simp [handleBrokerReport], rfl⟩
  · rcases e with e | _ | _
    · rcases e with e | re
      · rcases e with k | m
        · rcases k with m | m | m | m | m | m | m <;>
            first
            | exact ⟨by simp [handleBrokerReport],
                by simp [handleBrokerReport], rfl⟩
            | simp [transientBrokerReport] at h
        · exact ⟨by simp [handleBrokerReport],
            by simp [handleBrokerReport], rfl⟩
      · exact ⟨by simp [handleBrokerReport],
          by simp [handleBrokerReport], rfl⟩
    · exact ⟨by simp [handleBrokerReport], by simp [handleBrokerReport], rfl⟩
    · exact ⟨by simp [handleBrokerReport], by simp [handleBrokerReport], rfl⟩

/-- Witness for **C5** at the concrete non-transient report `Ok`. -/
theorem C5_witness :
    transientBrokerReport .ok = false ∧
    BrokerEffect.shutdown ∈
      (handleBrokerReport cfgA addrClosed addrOpen .ok).1 ∧
    (∀ b : Broker, BrokerEffect.spawnBroker b ∉
      (handleBrokerReport cfgA addrClosed addrOpen .ok).1) ∧
    (handleBrokerReport cfgA addrClosed addrOpen .ok).2 = addrClosed :=
  ⟨rfl,
   (C5_broker_nontransient_shutdown cfgA addrClosed addrOpen .ok rfl).1,
   (C5_broker_nontransient_shutdown cfgA addrClosed addrOpen .ok rfl).2.1,
   (C5_broker_nontransient_shutdown cfgA addrClosed addrOpen .ok rfl).2.2⟩

/-- **C6**: on a `Report<InxListener>` with an `InvalidAddress` or
`ParsingAddressFailed` error the Launcher shuts down and spawns no
replacement listener. -/
theorem C6_listener_config_errors (self : Launcher) (config : Config)
    (broker_addr : Addr) (m : String) :
    handleInxListenerReport self config broker_addr
        (.err (.result (.inx (.invalidAddress m)))) = [ListenerEffect.shutdown] ∧
    handleInxListenerReport self config broker_addr
        (.err (.result (.inx (.parsingAddressFailed m)))) =
      [ListenerEffect.shutdown] ∧
    (∀ l : InxListener, ListenerEffect.spawnListener l ∉
      handleInxListenerReport self config broker_addr
        (.err (.result (.inx (.invalidAddress m))))) ∧
    (∀ l : InxListener, ListenerEffect.spawnListener l ∉
      handleInxListenerReport self config broker_addr
        (.err (.result (.inx (.parsingAddressFailed m))))) := by
  refine ⟨rfl, rfl, ?_, ?_⟩ <;> simp [handleInxListenerReport]

/-- **C7**: on a `Report<ApiWorker>` with an application error
(`ActorError::Result`) the Launcher rebuilds a persistence connection from
config and spawns a fresh supervised query worker; on `Ok`, `Panic` or
`Aborted` it shuts down. -/
theorem C7_api_worker_policy (E : Type) (config : Config) (e : E) :
    handleApiWorkerReport config (Report.ok : Report E) = [ApiEffect.shutdown] ∧
    handleApiWorkerReport config (Report.err (.result e)) =
      [ApiEffect.spawnApiWorker (ApiWorker.new config.mongodb.build)] ∧
    handleApiWorkerReport config
        (Report.err (ActorError.panic : ActorError E)) = [ApiEffect.shutdown] ∧
    handleApiWorkerReport config
        (Report.err (ActorError.aborted : ActorError E)) = [ApiEffect.shutdown] :=
  ⟨rfl, rfl, rfl, rfl⟩

/-- **C8**: `MerkleHasher::hash` — the empty input hashes to the digest of the
empty byte string, a singleton to the leaf hash, and `n > 1` elements to the
node hash of the recursive hashes of the split at
`largest_power_of_two(data.len())`. At the failing input of `2^32 + 2`
elements that split is `1` — not the largest power of two strictly below `n`
— so the left branch is the leaf hash of the first element alone instead of
the hash of the first `2^32` elements. -/
theorem C8_hash_structure :
    (∀ digest : List Nat → List Nat,
      MerkleHasher.hash digest [] = digest []) ∧
    (∀ (digest : List Nat → List Nat) (l : List Nat),
      MerkleHasher.hash digest [l] = digest (leafHashTag :: l)) ∧
    (∀ (digest : List Nat → List Nat) (data : List (List Nat)),
      2 ≤ data.length →
      MerkleHasher.hash digest data =
        MerkleHasher.hash_node digest
          (MerkleHasher.hash digest
            (data.take (largest_power_of_two data.length)))
          (MerkleHasher.hash digest
            (data.drop (largest_power_of_two data.length)))) ∧
    (∀ digest : List Nat → List Nat,
      MerkleHasher.hash digest (List.replicate 4294967298 []) =
        MerkleHasher.hash_node digest
          (MerkleHasher.hash_leaf digest [])
          (MerkleHasher.hash digest (List.replicate 4294967297 []))) ∧
    largest_power_of_two 4294967298 = 1 ∧
    ¬ IsLargestPow2Lt 1 4294967298 := by
  refine ⟨?_, ?_, hash_cons_cons, ?_, largest_power_of_two_failing, ?_⟩
  · intro digest
    simp [MerkleHasher.hash, MerkleHasher.hash_empty]
  · intro digest l
    simp [MerkleHasher.hash, MerkleHasher.hash_leaf]
  · intro digest
    have e1 : List.replicate 4294967298 ([] : List Nat) =
        [] :: [] :: List.replicate 4294967296 [] := by
      rw [(by norm_num : (4294967298 : Nat) = 4294967297 + 1),
        List.replicate_succ,
        (by norm_num : (4294967297 : Nat) = 4294967296 + 1),
        List.replicate_succ]
    have hlen : ([] :: [] :: List.replicate 4294967296 ([] : List Nat)).length =
        4294967298 := by
      rw [List.length_cons, List.length_cons, List.length_replicate]
    have hlen2 :
        2 ≤ ([] :: [] :: List.replicate 4294967296 ([] : List Nat)).length := by
      rw [hlen]; norm_num
    rw [e1, hash_cons_cons digest _ hlen2, hlen, largest_power_of_two_failing]
    have htake : ([] :: [] :: List.replicate 4294967296 ([] : List Nat)).take 1 =
        [[]] := rfl
    have hdrop : ([] :: [] :: List.replicate 4294967296 ([] : List Nat)).drop 1 =
        [] :: List.replicate 4294967296 [] := rfl
    rw [htake, hdrop]
    have hleaf : MerkleHasher.hash digest [[]] =
        MerkleHasher.hash_leaf digest [] := by
      simp [MerkleHasher.hash]
    rw [hleaf, ← List.replicate_succ]
  · rintro ⟨-, -, hmax⟩
    have h32 := hmax 32 (by norm_num)
    norm_num at h32

/-- Witness for **C8** at the concrete two-element input. -/
theorem C8_witness :
    2 ≤ ([[0], [1]] : List (List Nat)).length ∧
    MerkleHasher.hash (fun l => l) [[0], [1]] =
      MerkleHasher.hash_node (fun l => l)
        (MerkleHasher.hash (fun l => l)
          (([[0], [1]] : List (List Nat)).take
            (largest_power_of_two ([[0], [1]] : List (List Nat)).length)))
        (MerkleHasher.hash (fun l => l)
          (([[0], [1]] : List (List Nat)).drop
            (largest_power_of_two ([[0], [1]] : List (List Nat)).length))) :=
  ⟨by decide,
   C8_hash_structure.2.2.1 (fun l => l) [[0], [1]] (by decide)⟩

/-- **C9**: `largest_power_of_two(n)` returns the largest power of two
strictly below `n` for all `2 ≤ n` with `n - 1 < 2^32`, but at the failing
input `n = 2^32 + 2` (valid on a 64-bit platform) it returns `1` because the
`as u32` cast truncates `n - 1`; the correct answer there is `2^32`. -/
theorem C9_largest_power_of_two :
    (∀ n : Nat, 2 ≤ n → n - 1 < 4294967296 →
      IsLargestPow2Lt (largest_power_of_two n) n) ∧
    largest_power_of_two 4294967298 = 1 ∧
    ¬ IsLargestPow2Lt 1 4294967298 ∧
    IsLargestPow2Lt 4294967296 4294967298 := by
  refine ⟨?_, largest_power_of_two_failing, ?_, ?_⟩
  · intro n h1 h2
    exact ⟨⟨(n - 1).size - 1, largest_power_of_two_eq_pow n h2⟩,
      largest_power_of_two_lt n h1,
      fun j hj => pow_le_largest n j h1 h2 hj⟩
  · rintro ⟨-, -, hmax⟩
    have h32 := hmax 32 (by norm_num)
    norm_num at h32
  · refine ⟨⟨32, by norm_num⟩, by norm_num, ?_⟩
    intro j hj
    rcases le_or_lt j 32 with hle | hgt
    · calc 2 ^ j ≤ 2 ^ 32 := Nat.pow_le_pow_right (by norm_num) hle
        _ = 4294967296 := by norm_num
    · exfalso
      have hpow : 2 ^ 33 ≤ 2 ^ j := Nat.pow_le_pow_right (by norm_num) hgt
      have h33 : (2 : Nat) ^ 33 = 8589934592 := by norm_num
      rw [h33] at hpow
      omega

/-- Witness for **C9** at the concrete input `n = 5`. -/
theorem C9_witness :
    2 ≤ 5 ∧ 5 - 1 < 4294967296 ∧
    IsLargestPow2Lt (largest_power_of_two 5) 5 :=
  ⟨by norm_num, by norm_num,
   C9_largest_power_of_two.1 5 (by norm_num) (by norm_num)⟩

/-- **C10**: the Broker's message and milestone handlers return `Ok` with no
upsert attempt (only a warning log) whenever the record conversion fails, and
return an error exactly when a database upsert fails. -/
theorem C10_broker_malformed_records {M R : Type}
    (try_from : M → Except String R)
    (upsert_one : R → Except MongoDbError Unit) (ev : M) :
    ((∀ cerr, try_from ev = .error cerr →
        brokerHandleMessage try_from upsert_one ev = ⟨.ok (), [], true⟩) ∧
     (∀ e, (brokerHandleMessage try_from upsert_one ev).result = .error e ↔
        ∃ rec merr, try_from ev = .ok rec ∧ upsert_one rec = .error merr ∧
          e = .mongoDbError merr)) ∧
    ((∀ cerr, try_from ev = .error cerr →
        brokerHandleMilestone try_from upsert_one ev = ⟨.ok (), [], true⟩) ∧
     (∀ e, (brokerHandleMilestone try_from upsert_one ev).result = .error e ↔
        ∃ rec merr, try_from ev = .ok rec ∧ upsert_one rec = .error merr ∧
          e = .mongoDbError merr)) := by
  refine ⟨⟨?_, ?_⟩, ⟨?_, ?_⟩⟩
  · intro cerr hc
    simp [brokerHandleMessage, hc]
  · intro e
    constructor
    · intro hres
      rcases hconv : try_from ev with cerr | rec
      · simp [brokerHandleMessage, hconv] at hres
      · rcases hup : upsert_one rec with uerr | u
        · simp [brokerHandleMessage, hconv, hup] at hres
          exact ⟨rec, uerr, rfl, hup, hres.symm⟩
        · simp [brokerHandleMessage, hconv, hup] at hres
    · rintro ⟨rec, merr, hc, hu, he⟩
      simp [brokerHandleMessage, hc, hu, he]
  · intro cerr hc
    simp [brokerHandleMilestone, hc]
  · intro e
    constructor
    · intro hres
      rcases hconv : try_from ev with cerr | rec
      · simp [brokerHandleMilestone, hconv] at hres
      · rcases hup : upsert_one rec with uerr | u
        · simp [brokerHandleMilestone, hconv, hup] at hres
          exact ⟨rec, uerr, rfl, hup, hres.symm⟩
        · simp [brokerHandleMilestone, hconv, hup] at hres
    · rintro ⟨rec, merr, hc, hu, he⟩
      simp [brokerHandleMilestone, hc, hu, he]

/-- Witness for **C10** at a concrete failing conversion. -/
theorem C10_witness :
    wTryFrom 0 = .error ("conv failed") ∧
    brokerHandleMessage wTryFrom wUpsertOk 0 = ⟨.ok (), [], true⟩ ∧
    brokerHandleMilestone wTryFrom wUpsertOk 0 = ⟨.ok (), [], true⟩ :=
  ⟨rfl,
   (C10_broker_malformed_records wTryFrom wUpsertOk 0).1.1 _ rfl,
   (C10_broker_malformed_records wTryFrom wUpsertOk 0).2.1 _ rfl⟩
